import Mathlib

/-!
Shallow embedding of the regclient core: the OCI-layout index operations
(`src/scheme/ocidir/ocidir.go`), the Docker schema2 manifest model
(`src/types/manifest/docker2.go`), and the registry-client manifest
operations (`src/unnamed/part_001`, package regclient).

Byte strings are lists of naturals; Go maps `map[string]string` are
association lists; external library functions (go-digest hashing,
encoding/json marshalling and unmarshalling, the containerd platform
matcher) are parameters of the embedded functions, since they live outside
this repository.
-/

namespace RegClient

/-- A byte string. -/
abbrev Bytes := List Nat

/-- A Go `map[string]string`, as an association list. -/
abbrev StrMap := List (String × String)

/-- Go map read: `v, ok := m[k]` (`none` models `ok == false`). -/
def mapGet (m : StrMap) (k : String) : Option String :=
  match m with
  | [] => none
  | (k', v) :: rest => if k' = k then some v else mapGet rest k

/-- Go map write: `m[k] = v`. -/
def mapSet (m : StrMap) (k v : String) : StrMap :=
  match m with
  | [] => [(k, v)]
  | (k', v') :: rest => if k' = k then (k, v) :: rest else (k', v') :: mapSet rest k v

/-- `ociv1.Platform` / `dockerManifestList.PlatformSpec`. -/
structure Plat where
  architecture : String := ""
  os : String := ""
  osVersion : String := ""
  osFeatures : List String := []
  variant : String := ""
  deriving Repr, DecidableEq

/-- `types.Descriptor` / `ociv1.Descriptor`.  `annotations = none` models a
nil Go map; `platform = none` models a nil `*Platform` pointer. -/
structure Descriptor where
  mediaType : String := ""
  digest : String := ""
  size : Int := 0
  urls : List String := []
  annotations : Option StrMap := none
  platform : Option Plat := none
  deriving Repr, DecidableEq

/-- Annotation lookup `name, ok := d.Annotations[k]`; a nil map reads as
absent, exactly as in Go. -/
def annoGet (d : Descriptor) (k : String) : Option String :=
  match d.annotations with
  | some m => mapGet m k
  | none => none

/-- `ref.Ref` (the fields the embedded operations read). -/
structure Ref where
  registry : String := ""
  repository : String := ""
  tag : String := ""
  digest : String := ""
  path : String := ""
  deriving Repr, DecidableEq

/-- `v1.Index` from the OCI layout. -/
structure Index where
  schemaVersion : Nat := 2
  mediaType : String := ""
  manifests : List Descriptor := []
  annotations : StrMap := []
  deriving Repr, DecidableEq

/-- `v1.ImageLayout`, the parsed `oci-layout` file. -/
structure ImageLayout where
  version : String := ""
  deriving Repr, DecidableEq

/-- Error values surfaced by the embedded operations, mirroring the named
errors and `fmt.Errorf` messages of the source. -/
inductive Err where
  | NotFound
  | Unavailable
  | UnsupportedMediaType
  | MissingDigest
  | MissingTagOrDigest
  | UnexpectedStatus (code : Nat)
  | UnknownMediaType (mt : String)
  | CannotOpen (file : String)
  | CannotParse (file : String)
  | UnsupportedLayoutVersion (v : String)
  | ParseFailed
  deriving Repr, DecidableEq

/-- `aRefName` constant of package ocidir. -/
def aRefName : String := "org.opencontainers.image.ref.name"

def MediaTypeDocker2Manifest : String :=
  "application/vnd.docker.distribution.manifest.v2+json"

def MediaTypeDocker2ManifestList : String :=
  "application/vnd.docker.distribution.manifest.list.v2+json"

def MediaTypeOCI1Manifest : String :=
  "application/vnd.oci.image.manifest.v1+json"

def MediaTypeOCI1ManifestList : String :=
  "application/vnd.oci.image.index.v1+json"

/-! ## ocidir: indexGet and indexSet -/

/-- `indexGet` of `src/scheme/ocidir/ocidir.go`: digest match first, then
tag-annotation match, defaulting an empty reference to tag `latest`. -/
def indexGet (index : Index) (r : Ref) : Except Err Descriptor :=
  let r := if r.digest = "" ∧ r.tag = "" then { r with tag := "latest" } else r
  if r.digest ≠ "" then
    match index.manifests.find? (fun im => im.digest == r.digest) with
    | some im => .ok im
    | none => .error .NotFound
  else if r.tag ≠ "" then
    match index.manifests.find? (fun im => annoGet im aRefName == some r.tag) with
    | some im => .ok im
    | none => .error .NotFound
  else .error .NotFound

/-- The entry-match condition of `indexSet`:
`(index.Manifests[i].Digest == d.Digest && !ok) || (ok && name == r.Tag)`
where `name, ok` read the `aRefName` annotation only when the tag is
non-empty. -/
def matchEntry (tag dg : String) (e : Descriptor) : Bool :=
  match (if tag ≠ "" then annoGet e aRefName else none) with
  | some name => name == tag
  | none => e.digest == dg

/-- The duplicate-removal loop of `indexSet`: every entry after the replaced
position that matches the same condition is removed (the Go loop walks the
indices downward, which removes exactly the matching elements). -/
def removeDups (tag dg : String) : List Descriptor → List Descriptor
  | [] => []
  | e :: rest =>
    if matchEntry tag dg e then removeDups tag dg rest
    else e :: removeDups tag dg rest

/-- The search/replace/append body of `indexSet`: replace the first matching
entry in place and drop later duplicates, or append when no entry matches. -/
def indexSetLoop (tag : String) (d : Descriptor) : List Descriptor → List Descriptor
  | [] => [d]
  | e :: rest =>
    if matchEntry tag d.digest e then d :: removeDups tag d.digest rest
    else e :: indexSetLoop tag d rest

/-- The first step of `indexSet`: set the descriptor's `aRefName`
annotation to the tag, allocating the map when nil. -/
def tagDesc (d : Descriptor) (tag : String) : Descriptor :=
  { d with annotations := some (mapSet (d.annotations.getD []) aRefName tag) }

/-- `indexSet` of `src/scheme/ocidir/ocidir.go`: when the reference carries a
tag, the descriptor's `aRefName` annotation is set to it (allocating the map
when nil) before the replace/append pass. -/
def indexSet (index : Index) (r : Ref) (d : Descriptor) : Index :=
  let d' := if r.tag ≠ "" then tagDesc d r.tag else d
  { index with manifests := indexSetLoop r.tag d' index.manifests }

/-! ## ocidir: filesystem, valid, readIndex, writeIndex -/

/-- The injectable filesystem as a path-to-content map (rwfs.RWFS). -/
abbrev FS := List (String × Bytes)

/-- Read a file: `none` models an open error. -/
def fsGet (fs : FS) (p : String) : Option Bytes :=
  match fs with
  | [] => none
  | (p', b) :: rest => if p' = p then some b else fsGet rest p

/-- Store content at a path. -/
def fsSet (fs : FS) (p : String) (b : Bytes) : FS :=
  match fs with
  | [] => [(p, b)]
  | (p', b') :: rest => if p' = p then (p, b) :: rest else (p', b') :: fsSet rest p b

/-- `imageLayoutFile` constant of package ocidir. -/
def imageLayoutFile : String := "oci-layout"

/-- `path.Join(dir, name)` for a clean non-empty `dir`. -/
def pathJoin (dir name : String) : String := dir ++ "/" ++ name

/-- `valid` of `src/scheme/ocidir/ocidir.go`: opens `oci-layout`, parses it
(`parseLayout` stands for `json.Unmarshal` into `v1.ImageLayout`), and
requires version `1.0.0`.  `none` means the layout is valid. -/
def valid (parseLayout : Bytes → Option ImageLayout) (fs : FS) (dir : String) :
    Option Err :=
  match fsGet fs (pathJoin dir imageLayoutFile) with
  | none => some (.CannotOpen imageLayoutFile)
  | some lb =>
    match parseLayout lb with
    | none => some (.CannotParse imageLayoutFile)
    | some layout =>
      if layout.version ≠ "1.0.0" then some (.UnsupportedLayoutVersion layout.version)
      else none

/-- `readIndex` of `src/scheme/ocidir/ocidir.go`: validates the layout dir,
then opens and parses `index.json` (`parseIndex` stands for `json.Unmarshal`
into `v1.Index`).  On error the Go function returns the empty `v1.Index{}`
with the error; `Except.error` models that pair. -/
def readIndex (parseLayout : Bytes → Option ImageLayout)
    (parseIndex : Bytes → Option Index) (fs : FS) (r : Ref) : Except Err Index :=
  match valid parseLayout fs r.path with
  | some e => .error e
  | none =>
    match fsGet fs (pathJoin r.path "index.json") with
    | none => .error (.CannotOpen "index.json")
    | some ib =>
      match parseIndex ib with
      | none => .error (.CannotParse "index.json")
      | some index => .ok index

/-- One primitive filesystem operation issued by the layout writer:
`Create` truncates (or creates) a file, `Write` appends bytes to it,
`Rename` moves a file over another. -/
inductive FSOp where
  | create (p : String)
  | write (p : String) (b : Bytes)
  | rename (src dst : String)
  deriving Repr, DecidableEq

/-- Apply one filesystem operation. -/
def applyOp (fs : FS) : FSOp → FS
  | .create p => fsSet fs p []
  | .write p b => fsSet fs p ((fsGet fs p).getD [] ++ b)
  | .rename src dst =>
    match fsGet fs src with
    | some b => fsSet fs dst b
    | none => fs

/-- Apply a sequence of filesystem operations in order. -/
def applyOps (fs : FS) (ops : List FSOp) : FS := ops.foldl applyOp fs

/-- `writeIndex` of `src/scheme/ocidir/ocidir.go` as the exact trace of
filesystem operations it performs: it creates and writes `oci-layout`, then
creates and writes `index.json` directly at their final paths.
`jLayout` stands for `json.Marshal` of `v1.ImageLayout{Version: "1.0.0"}`
and `jIndex` for `json.Marshal` of the index. -/
def writeIndexOps (jLayout : Bytes) (jIndex : Index → Bytes) (r : Ref) (i : Index) :
    List FSOp :=
  [ .create (pathJoin r.path imageLayoutFile),
    .write (pathJoin r.path imageLayoutFile) jLayout,
    .create (pathJoin r.path "index.json"),
    .write (pathJoin r.path "index.json") (jIndex i) ]

/-- Whether a filesystem operation is a rename. -/
def FSOp.isRen : FSOp → Bool
  | .rename _ _ => true
  | _ => false

/-! ## types/manifest: the Docker schema2 manifest model -/

/-- `schema2.Manifest` (`src/unnamed/part_000`): a versioned header with a
config descriptor and a list of layer descriptors. -/
structure Schema2Manifest where
  schemaVersion : Nat := 2
  mediaType : String := ""
  config : Descriptor := {}
  layers : List Descriptor := []
  deriving Repr, DecidableEq

/-- `schema2.ManifestList`: a versioned header with a list of per-platform
manifest descriptors. -/
structure Schema2ManifestList where
  schemaVersion : Nat := 2
  mediaType : String := ""
  manifests : List Descriptor := []
  deriving Repr, DecidableEq

/-- `docker2Manifest` of `src/types/manifest/docker2.go`: the `common`
fields used by the embedded methods plus the embedded `schema2.Manifest`. -/
structure Docker2Manifest where
  manifSet : Bool := false
  rawBody : Bytes := []
  desc : Descriptor := {}
  manifest : Schema2Manifest := {}
  deriving Repr, DecidableEq

/-- `docker2ManifestList` of `src/types/manifest/docker2.go`. -/
structure Docker2ManifestList where
  manifSet : Bool := false
  rawBody : Bytes := []
  desc : Descriptor := {}
  manifestList : Schema2ManifestList := {}
  deriving Repr, DecidableEq

/-- `docker2Manifest.MarshalJSON`: unavailable until the body is set, then
the preserved raw bytes, otherwise `json.Marshal` (`J`) of the structured
manifest.  The Go pair return `([]byte, error)` is modelled directly. -/
def Docker2Manifest.marshalJSON (J : Schema2Manifest → Bytes)
    (m : Docker2Manifest) : Bytes × Option Err :=
  if !m.manifSet then ([], some .Unavailable)
  else if m.rawBody.length > 0 then (m.rawBody, none)
  else (J m.manifest, none)

/-- `docker2ManifestList.MarshalJSON`. -/
def Docker2ManifestList.marshalJSON (J : Schema2ManifestList → Bytes)
    (m : Docker2ManifestList) : Bytes × Option Err :=
  if !m.manifSet then ([], some .Unavailable)
  else if m.rawBody.length > 0 then (m.rawBody, none)
  else (J m.manifestList, none)

/-- `docker2Manifest.SetOrig`: forces the media type, marshals the value
(`J` for `json.Marshal`, `H` for `digest.FromBytes`), stores the bytes as
the raw body and fills the descriptor with the computed digest and size. -/
def Docker2Manifest.setOrig (J : Schema2Manifest → Bytes) (H : Bytes → String)
    (m : Docker2Manifest) (origIn : Schema2Manifest) : Docker2Manifest :=
  let orig := if origIn.mediaType ≠ MediaTypeDocker2Manifest then
      { origIn with mediaType := MediaTypeDocker2Manifest }
    else origIn
  let mj := J orig
  { m with manifSet := true, rawBody := mj,
           desc := { mediaType := MediaTypeDocker2Manifest, digest := H mj,
                     size := (mj.length : Int) },
           manifest := orig }

/-- `docker2ManifestList.SetOrig`. -/
def Docker2ManifestList.setOrig (J : Schema2ManifestList → Bytes) (H : Bytes → String)
    (m : Docker2ManifestList) (origIn : Schema2ManifestList) : Docker2ManifestList :=
  let orig := if origIn.mediaType ≠ MediaTypeDocker2ManifestList then
      { origIn with mediaType := MediaTypeDocker2ManifestList }
    else origIn
  let mj := J orig
  { m with manifSet := true, rawBody := mj,
           desc := { mediaType := MediaTypeDocker2ManifestList, digest := H mj,
                     size := (mj.length : Int) },
           manifestList := orig }

/-- `docker2Manifest.GetConfig`. -/
def Docker2Manifest.getConfig (m : Docker2Manifest) : Except Err Descriptor :=
  .ok m.manifest.config

/-- `docker2Manifest.GetLayers`. -/
def Docker2Manifest.getLayers (m : Docker2Manifest) : Except Err (List Descriptor) :=
  .ok m.manifest.layers

/-- `docker2Manifest.GetManifestList`. -/
def Docker2Manifest.getManifestList (_ : Docker2Manifest) : Except Err (List Descriptor) :=
  .error .UnsupportedMediaType

/-- `docker2Manifest.GetPlatformDesc`. -/
def Docker2Manifest.getPlatformDesc (_ : Docker2Manifest) (_ : Plat) :
    Except Err Descriptor :=
  .error .UnsupportedMediaType

/-- `docker2ManifestList.GetConfig`. -/
def Docker2ManifestList.getConfig (_ : Docker2ManifestList) : Except Err Descriptor :=
  .error .UnsupportedMediaType

/-- `docker2ManifestList.GetLayers`. -/
def Docker2ManifestList.getLayers (_ : Docker2ManifestList) :
    Except Err (List Descriptor) :=
  .error .UnsupportedMediaType

/-- `docker2ManifestList.GetManifestList`. -/
def Docker2ManifestList.getManifestList (m : Docker2ManifestList) :
    Except Err (List Descriptor) :=
  .ok m.manifestList.manifests

/-! ## package regclient (src/unnamed/part_001): manifest operations -/

/-- `dockerManifestList.ManifestDescriptor`: a descriptor with a by-value
`PlatformSpec`. -/
structure MLDescriptor where
  mediaType : String := ""
  digest : String := ""
  size : Int := 0
  urls : List String := []
  annotations : Option StrMap := none
  platform : Plat := {}
  deriving Repr, DecidableEq

/-- `dockerManifestList.ManifestList`. -/
structure DockerManifestList where
  schemaVersion : Nat := 2
  mediaType : String := ""
  manifests : List MLDescriptor := []
  deriving Repr, DecidableEq

/-- `ociv1.Index`. -/
structure OCIIndex where
  schemaVersion : Nat := 2
  manifests : List Descriptor := []
  deriving Repr, DecidableEq

/-- The `manifest` struct of package regclient (`src/unnamed/part_001`). -/
structure RCManifest where
  digest : String := ""
  dockerM : Schema2Manifest := {}
  dockerML : DockerManifestList := {}
  manifSet : Bool := false
  mt : String := ""
  ociM : Schema2Manifest := {}
  ociML : OCIIndex := {}
  origByte : Bytes := []
  deriving Repr, DecidableEq

/-- `dlp2Platform`: converts a docker `PlatformSpec` to an `ociv1.Platform`
field by field. -/
def dlp2Platform (sp : Plat) : Plat :=
  { architecture := sp.architecture, os := sp.os, variant := sp.variant,
    osVersion := sp.osVersion, osFeatures := sp.osFeatures }

/-- `dl2oDescriptor`: converts a docker manifest-list descriptor to an
`ociv1.Descriptor`. -/
def dl2oDescriptor (sd : MLDescriptor) : Descriptor :=
  { mediaType := sd.mediaType, digest := sd.digest, size := sd.size,
    urls := sd.urls, annotations := sd.annotations,
    platform := some (dlp2Platform sd.platform) }

/-- Go dereference of the `*ociv1.Platform` in an OCI index entry; a nil
pointer would panic in Go, so theorems over the OCI branch assume the
platform is present. -/
def derefPlat (p : Option Plat) : Plat := p.getD {}

/-- `manifest.GetPlatformDesc` of package regclient: the `matcher` parameter
stands for `platforms.NewMatcher(*p).Match`, an external containerd
function.  Returns the first entry of the list whose platform matches, or
`NotFound`; non-list media types fail with `UnsupportedMediaType`. -/
def RCManifest.getPlatformDesc (matcher : Plat → Bool) (m : RCManifest) :
    Except Err Descriptor :=
  if m.mt = MediaTypeDocker2ManifestList then
    match m.dockerML.manifests.find? (fun d => matcher (dlp2Platform d.platform)) with
    | some d => .ok (dl2oDescriptor d)
    | none => .error .NotFound
  else if m.mt = MediaTypeOCI1ManifestList then
    match m.ociML.manifests.find? (fun d => matcher (derefPlat d.platform)) with
    | some d => .ok d
    | none => .error .NotFound
  else .error .UnsupportedMediaType

/-- `manifest.MarshalJSON` of package regclient: unavailable until set, then
the original bytes, otherwise `json.Marshal` of the variant selected by the
media type (the `J…` parameters). -/
def RCManifest.marshalJSON (Jd : Schema2Manifest → Bytes)
    (Jdl : DockerManifestList → Bytes) (Jo : Schema2Manifest → Bytes)
    (Jol : OCIIndex → Bytes) (m : RCManifest) : Bytes × Option Err :=
  if !m.manifSet then ([], some .Unavailable)
  else if m.origByte.length > 0 then (m.origByte, none)
  else if m.mt = MediaTypeDocker2Manifest then (Jd m.dockerM, none)
  else if m.mt = MediaTypeDocker2ManifestList then (Jdl m.dockerML, none)
  else if m.mt = MediaTypeOCI1Manifest then (Jo m.ociM, none)
  else if m.mt = MediaTypeOCI1ManifestList then (Jol m.ociML, none)
  else ([], some .UnsupportedMediaType)

/-- An HTTP request as built by the registry scheme (method, path and Accept
header); `Except.error` from an operation means no request was issued. -/
structure HttpRequest where
  method : String := ""
  path : String := ""
  accept : List String := []
  deriving Repr, DecidableEq

/-- The Accept list sent with every manifest request. -/
def manifestAccept : List String :=
  [MediaTypeDocker2Manifest, MediaTypeDocker2ManifestList,
   MediaTypeOCI1Manifest, MediaTypeOCI1ManifestList]

/-- `regClient.ManifestDelete`: requires a digest reference before anything
else, then issues `DELETE /v2/<repo>/manifests/<digest>`.  The returned
request is the one handed to `DoRequest`. -/
def manifestDelete (r : Ref) : Except Err HttpRequest :=
  if r.digest = "" then .error .MissingDigest
  else .ok { method := "DELETE",
             path := "/v2/" ++ r.repository ++ "/manifests/" ++ r.digest,
             accept := manifestAccept }

/-- An HTTP response as consumed by `ManifestGet`: status code,
`Content-Type` and `Docker-Content-Digest` headers, and the body bytes (a
missing header reads as the empty string, as `Header.Get` does). -/
structure HttpResponse where
  statusCode : Nat := 0
  contentType : String := ""
  dockerContentDigest : String := ""
  body : Bytes := []
  deriving Repr, DecidableEq

/-- `regClient.ManifestGet` from the response onward: requires a tag or
digest, requires status 200, computes the digest of the body (`H` stands
for `digest.Canonical`), compares it against the `Docker-Content-Digest`
header — logging a warning on mismatch, reported in the boolean component —
then unmarshals the body by media type (the `u…` parameters stand for
`json.Unmarshal`; `none` is a parse error).  Unknown media types fail. -/
def manifestGet (H : Bytes → String)
    (uDockerM : Bytes → Option Schema2Manifest)
    (uDockerML : Bytes → Option DockerManifestList)
    (uOciM : Bytes → Option Schema2Manifest)
    (uOciML : Bytes → Option OCIIndex)
    (r : Ref) (resp : HttpResponse) : Except Err RCManifest × Bool :=
  if r.digest = "" ∧ r.tag = "" then (.error .MissingTagOrDigest, false)
  else if resp.statusCode ≠ 200 then (.error (.UnexpectedStatus resp.statusCode), false)
  else
    let dg := H resp.body
    let warn := dg ≠ resp.dockerContentDigest
    let mt := resp.contentType
    let m0 : RCManifest := { digest := dg, mt := mt, origByte := resp.body }
    if mt = MediaTypeDocker2Manifest then
      match uDockerM resp.body with
      | some v => (.ok { m0 with dockerM := v, manifSet := true }, warn)
      | none => (.error .ParseFailed, warn)
    else if mt = MediaTypeDocker2ManifestList then
      match uDockerML resp.body with
      | some v => (.ok { m0 with dockerML := v, manifSet := true }, warn)
      | none => (.error .ParseFailed, warn)
    else if mt = MediaTypeOCI1Manifest then
      match uOciM resp.body with
      | some v => (.ok { m0 with ociM := v, manifSet := true }, warn)
      | none => (.error .ParseFailed, warn)
    else if mt = MediaTypeOCI1ManifestList then
      match uOciML resp.body with
      | some v => (.ok { m0 with ociML := v, manifSet := true }, warn)
      | none => (.error .ParseFailed, warn)
    else (.error (.UnknownMediaType mt), warn)

/-! ## Concrete stand-ins for external functions, used to evaluate the
theorems on concrete inputs -/

/-- A concrete stand-in hash for witnesses: digests by length. -/
def H0 : Bytes → String := fun b => "sha256:" ++ toString b.length

/-- Concrete stand-in `json.Marshal` for `schema2.Manifest`. -/
def J0 : Schema2Manifest → Bytes := fun v => [123, v.layers.length]

/-- Concrete stand-in `json.Marshal` for `schema2.ManifestList`. -/
def JL0 : Schema2ManifestList → Bytes := fun v => [124, v.manifests.length]

/-- Concrete stand-in `json.Marshal` for `DockerManifestList`. -/
def Jdl0 : DockerManifestList → Bytes := fun v => [125, v.manifests.length]

/-- Concrete stand-in `json.Marshal` for `OCIIndex`. -/
def Jol0 : OCIIndex → Bytes := fun v => [126, v.manifests.length]

/-- Concrete stand-in `json.Unmarshal` for `schema2.Manifest`. -/
def uD2M0 : Bytes → Option Schema2Manifest := fun _ => some {}

/-- Concrete stand-in `json.Unmarshal` for `DockerManifestList`. -/
def uD2ML0 : Bytes → Option DockerManifestList := fun _ => some {}

/-- Concrete stand-in `json.Unmarshal` for `OCIIndex`. -/
def uOI0 : Bytes → Option OCIIndex := fun _ => some {}

/-- Concrete stand-in parse of the `oci-layout` file: byte 1 is the valid
layout, byte 2 a layout with a wrong version, anything else a parse error. -/
def pLayout0 : Bytes → Option ImageLayout := fun b =>
  if b = [1] then some { version := "1.0.0" }
  else if b = [2] then some { version := "0.9" }
  else none

/-- Concrete stand-in parse of `index.json`. -/
def pIndex0 : Bytes → Option Index := fun b =>
  if b = [5] then some { mediaType := MediaTypeOCI1ManifestList } else none

/-- Whether a descriptor carries the ref-name annotation with this tag. -/
def hasTag (tag : String) (e : Descriptor) : Bool :=
  annoGet e aRefName == some tag

/-- A concrete three-entry index for evaluating the indexSet theorems: one
untagged entry and two entries both tagged `v1`. -/
def idxW : Index :=
  { manifests := [{ digest := "sha256:a" },
      { digest := "sha256:b", annotations := some [(aRefName, "v1")] },
      { digest := "sha256:c", annotations := some [(aRefName, "v1")] }] }

/-- A concrete tagged reference for the indexSet theorems. -/
def rW : Ref := { tag := "v1" }

/-- A concrete descriptor to store under the tag. -/
def dW : Descriptor := { digest := "sha256:d" }

/-- Index of the first entry satisfying the predicate. -/
def findIdxOpt {α : Type} (p : α → Bool) : List α → Option Nat
  | [] => none
  | a :: l => if p a then some 0 else (findIdxOpt p l).map (· + 1)

end RegClient

namespace RegClient

/-! ## Theorems -/

/-- Writing a key into a string map makes it readable. -/
theorem mapGet_mapSet_self (m : StrMap) (k v : String) :
    mapGet (mapSet m k v) k = some v := by
  induction m with
  | nil => simp [mapSet, mapGet]
  | cons a rest ih =>
    obtain ⟨k', v'⟩ := a
    by_cases h : k' = k
    · subst h; simp [mapSet, mapGet]
    · simp [mapSet, mapGet, h, ih]

/-- The downward removal loop keeps exactly the non-matching entries. -/
theorem removeDups_eq_filter (tag dg : String) (l : List Descriptor) :
    removeDups tag dg l = l.filter (fun e => !matchEntry tag dg e) := by
  induction l with
  | nil => rfl
  | cons e rest ih =>
    by_cases he : matchEntry tag dg e
    · simp [removeDups, he, ih, List.filter_cons]
    · simp [removeDups, he, ih, List.filter_cons]

/-- A descriptor annotated with the tag satisfies the indexSet match
condition, whatever digest is compared. -/
theorem hasTag_matchEntry {tag dg : String} {e : Descriptor} (h : tag ≠ "")
    (ht : hasTag tag e = true) : matchEntry tag dg e = true := by
  have ha : annoGet e aRefName = some tag := by simpa [hasTag] using ht
  unfold matchEntry
  rw [if_pos h, ha]
  simp

/-- `tagDesc` stamps the ref-name annotation. -/
theorem hasTag_tagDesc (d : Descriptor) (tag : String) :
    hasTag tag (tagDesc d tag) = true := by
  simp [hasTag, tagDesc, annoGet, mapGet_mapSet_self]

/-- After duplicate removal no surviving entry carries the tag. -/
theorem filter_removeDups_nil {tag : String} (h : tag ≠ "") (dg : String)
    (l : List Descriptor) : (removeDups tag dg l).filter (hasTag tag) = [] := by
  induction l with
  | nil => rfl
  | cons e rest ih =>
    by_cases he : matchEntry tag dg e
    · simp [removeDups, he, ih]
    · have hne : hasTag tag e = false := by
        by_contra hc
        exact absurd (hasTag_matchEntry h (by simpa using hc)) (by simpa using he)
      simp [removeDups, he, List.filter_cons, hne, ih]

/-- The replace/append pass leaves exactly one entry carrying the tag:
the inserted descriptor. -/
theorem filter_indexSetLoop {tag : String} (h : tag ≠ "") (d : Descriptor)
    (hd : hasTag tag d = true) (ms : List Descriptor) :
    (indexSetLoop tag d ms).filter (hasTag tag) = [d] := by
  induction ms with
  | nil => simp [indexSetLoop, List.filter_cons, hd]
  | cons e rest ih =>
    by_cases he : matchEntry tag d.digest e
    · simp [indexSetLoop, he, List.filter_cons, hd, filter_removeDups_nil h]
    · have hne : hasTag tag e = false := by
        by_contra hc
        exact absurd (hasTag_matchEntry h (by simpa using hc)) (by simpa using he)
      simp [indexSetLoop, he, List.filter_cons, hne, ih]

/-- Duplicate removal is idempotent. -/
theorem removeDups_idem (tag dg : String) (l : List Descriptor) :
    removeDups tag dg (removeDups tag dg l) = removeDups tag dg l := by
  induction l with
  | nil => rfl
  | cons e rest ih =>
    by_cases he : matchEntry tag dg e
    · simp [removeDups, he, ih]
    · simp [removeDups, he, ih]

/-- The replace/append pass is idempotent once the inserted descriptor
matches its own search condition. -/
theorem indexSetLoop_idem {tag : String} {d : Descriptor}
    (hm : matchEntry tag d.digest d = true) (ms : List Descriptor) :
    indexSetLoop tag d (indexSetLoop tag d ms) = indexSetLoop tag d ms := by
  induction ms with
  | nil => simp [indexSetLoop, hm, removeDups]
  | cons e rest ih =>
    by_cases he : matchEntry tag d.digest e
    · simp [indexSetLoop, he, hm, removeDups_idem]
    · simp [indexSetLoop, he, ih]

/-- When some entry matches, the pass replaces the first matching entry in
place and filters later matching duplicates out of the tail. -/
theorem indexSetLoop_char_found {tag : String} (d : Descriptor)
    (ms : List Descriptor) :
    ∀ p, findIdxOpt (matchEntry tag d.digest) ms = some p →
      indexSetLoop tag d ms
        = ms.take p ++ d :: (ms.drop (p + 1)).filter (fun e => !matchEntry tag d.digest e) := by
  induction ms with
  | nil => intro p hp; simp [findIdxOpt] at hp
  | cons e rest ih =>
    intro p hp
    by_cases he : matchEntry tag d.digest e
    · simp [findIdxOpt, he] at hp
      subst hp
      simp [indexSetLoop, he, removeDups_eq_filter]
    · simp [findIdxOpt, he] at hp
      obtain ⟨q, hq, hpq⟩ := hp
      subst hpq
      simp [indexSetLoop, he, ih q hq]

/-- When no entry matches, the pass appends the descriptor. -/
theorem indexSetLoop_char_none {tag : String} (d : Descriptor)
    (ms : List Descriptor) :
    findIdxOpt (matchEntry tag d.digest) ms = none →
      indexSetLoop tag d ms = ms ++ [d] := by
  induction ms with
  | nil => intro _; simp [indexSetLoop]
  | cons e rest ih =>
    intro hn
    by_cases he : matchEntry tag d.digest e
    · simp [findIdxOpt, he] at hn
    · simp [findIdxOpt, he] at hn
      simp [indexSetLoop, he, ih hn]

/-- Claim C2: after `indexSet` with a non-empty tag, the index holds exactly
one entry annotated with that tag — the new descriptor with the annotation
stamped; a pre-existing entry matching the tie-break rules is replaced in
place with later matching duplicates removed, a missing match appends the
entry, and repeating the same `indexSet` changes nothing. -/
theorem indexSet_tag_unique (index : Index) (r : Ref) (d : Descriptor)
    (h : r.tag ≠ "") :
    ((indexSet index r d).manifests.filter (hasTag r.tag) = [tagDesc d r.tag])
  ∧ (indexSet (indexSet index r d) r d = indexSet index r d)
  ∧ (∀ p, findIdxOpt (matchEntry r.tag d.digest) index.manifests = some p →
        (indexSet index r d).manifests
          = index.manifests.take p ++ tagDesc d r.tag ::
              (index.manifests.drop (p + 1)).filter
                (fun e => !matchEntry r.tag d.digest e))
  ∧ (findIdxOpt (matchEntry r.tag d.digest) index.manifests = none →
        (indexSet index r d).manifests = index.manifests ++ [tagDesc d r.tag]) := by
  have hd : hasTag r.tag (tagDesc d r.tag) = true := hasTag_tagDesc d r.tag
  refine ⟨?_, ?_, ?_, ?_⟩
  · simp only [indexSet, if_pos h]
    exact filter_indexSetLoop h _ hd index.manifests
  · have hm : matchEntry r.tag (tagDesc d r.tag).digest (tagDesc d r.tag) = true :=
      hasTag_matchEntry h hd
    have h2 : indexSetLoop r.tag (tagDesc d r.tag)
          (indexSetLoop r.tag (tagDesc d r.tag) index.manifests)
        = indexSetLoop r.tag (tagDesc d r.tag) index.manifests :=
      indexSetLoop_idem hm index.manifests
    simp only [indexSet, if_pos h]
    simp [h2]
  · intro p hp
    simp only [indexSet, if_pos h]
    exact indexSetLoop_char_found (tagDesc d r.tag) index.manifests p hp
  · intro hn
    simp only [indexSet, if_pos h]
    exact indexSetLoop_char_none (tagDesc d r.tag) index.manifests hn

/-- Witness for C2 on a three-entry index with two duplicate `v1` rows:
the result keeps exactly one `v1` entry, the write is idempotent, and the
replacement happens at the first matching position. -/
theorem indexSet_tag_unique_witness :
    (indexSet idxW rW dW).manifests.filter (hasTag rW.tag) = [tagDesc dW rW.tag]
  ∧ indexSet (indexSet idxW rW dW) rW dW = indexSet idxW rW dW
  ∧ (indexSet idxW rW dW).manifests
      = idxW.manifests.take 1 ++ tagDesc dW rW.tag ::
          (idxW.manifests.drop 2).filter (fun e => !matchEntry rW.tag dW.digest e) := by
  refine ⟨(indexSet_tag_unique idxW rW dW (by decide)).1,
          (indexSet_tag_unique idxW rW dW (by decide)).2.1,
          (indexSet_tag_unique idxW rW dW (by decide)).2.2.1 1 (by decide)⟩

/-- Claim C3: `indexGet` resolves a non-empty digest to the first descriptor
with a matching digest (tag annotations ignored), otherwise a non-empty tag
to the first descriptor whose `org.opencontainers.image.ref.name`
annotation equals the tag; a reference with neither is treated as tag
`latest`; and when no entry matches the result is `NotFound`. -/
theorem indexGet_resolution (index : Index) (r : Ref) :
    (r.digest ≠ "" → ∀ dsc, index.manifests.find? (fun im => im.digest == r.digest) = some dsc →
        indexGet index r = .ok dsc)
  ∧ (r.digest ≠ "" → index.manifests.find? (fun im => im.digest == r.digest) = none →
        indexGet index r = .error .NotFound)
  ∧ (r.digest = "" → r.tag ≠ "" → ∀ dsc,
        index.manifests.find? (fun im => annoGet im aRefName == some r.tag) = some dsc →
        indexGet index r = .ok dsc)
  ∧ (r.digest = "" → r.tag ≠ "" →
        index.manifests.find? (fun im => annoGet im aRefName == some r.tag) = none →
        indexGet index r = .error .NotFound)
  ∧ (r.digest = "" → r.tag = "" → indexGet index r = indexGet index { r with tag := "latest" }) := by
  refine ⟨?_, ?_, ?_, ?_, ?_⟩
  · intro h dsc hf
    have hne : ¬(r.digest = "" ∧ r.tag = "") := fun hc => h hc.1
    simp only [indexGet]
    rw [if_neg hne, if_pos h, hf]
  · intro h hf
    have hne : ¬(r.digest = "" ∧ r.tag = "") := fun hc => h hc.1
    simp only [indexGet]
    rw [if_neg hne, if_pos h, hf]
  · intro hd ht dsc hf
    have hne : ¬(r.digest = "" ∧ r.tag = "") := fun hc => ht hc.2
    simp only [indexGet]
    rw [if_neg hne, if_neg (by simpa using hd), if_pos ht, hf]
  · intro hd ht hf
    have hne : ¬(r.digest = "" ∧ r.tag = "") := fun hc => ht hc.2
    simp only [indexGet]
    rw [if_neg hne, if_neg (by simpa using hd), if_pos ht, hf]
  · intro hd ht
    obtain ⟨reg, repo, tg, dg, pth⟩ := r
    simp only at hd ht
    subst hd; subst ht
    rfl

/-- Witness for C3 at a concrete index. -/
theorem indexGet_resolution_witness :
    indexGet { manifests := [{ digest := "sha256:a" },
        { digest := "sha256:b", annotations := some [(aRefName, "v1")] }] }
      { tag := "v1" }
      = .ok { digest := "sha256:b", annotations := some [(aRefName, "v1")] } :=
  (indexGet_resolution _ _).2.2.1 rfl (by decide) _ (by decide)

/-- Claim C6: `readIndex` first validates the layout: a missing
`oci-layout` file, a parse failure, or a version other than `1.0.0` each
make it fail without returning index data, and any successful read implies
the validation passed. -/
theorem readIndex_validates_layout (pLay : Bytes → Option ImageLayout)
    (pIdx : Bytes → Option Index) (fs : FS) (r : Ref) :
    (∀ e, valid pLay fs r.path = some e → readIndex pLay pIdx fs r = .error e)
  ∧ (fsGet fs (pathJoin r.path imageLayoutFile) = none →
        readIndex pLay pIdx fs r = .error (.CannotOpen imageLayoutFile))
  ∧ (∀ lb, fsGet fs (pathJoin r.path imageLayoutFile) = some lb → pLay lb = none →
        readIndex pLay pIdx fs r = .error (.CannotParse imageLayoutFile))
  ∧ (∀ lb lay, fsGet fs (pathJoin r.path imageLayoutFile) = some lb → pLay lb = some lay →
        lay.version ≠ "1.0.0" →
        readIndex pLay pIdx fs r = .error (.UnsupportedLayoutVersion lay.version))
  ∧ (∀ index, readIndex pLay pIdx fs r = .ok index → valid pLay fs r.path = none) := by
  refine ⟨?_, ?_, ?_, ?_, ?_⟩
  · intro e he
    simp [readIndex, he]
  · intro h
    simp [readIndex, valid, h]
  · intro lb hlb hp
    simp [readIndex, valid, hlb, hp]
  · intro lb lay hlb hp hv
    simp [readIndex, valid, hlb, hp, hv]
  · intro index h
    cases hv : valid pLay fs r.path with
    | none => rfl
    | some e => simp [readIndex, hv] at h

/-- Witness for C6: a missing layout file, an unparsable one, and a wrong
version each make `readIndex` fail. -/
theorem readIndex_validates_layout_witness :
    readIndex pLayout0 pIndex0 [] { path := "d" } = .error (.CannotOpen imageLayoutFile)
  ∧ readIndex pLayout0 pIndex0 [("d/oci-layout", [3])] { path := "d" }
      = .error (.CannotParse imageLayoutFile)
  ∧ readIndex pLayout0 pIndex0 [("d/oci-layout", [2])] { path := "d" }
      = .error (.UnsupportedLayoutVersion "0.9") := by
  refine ⟨?_, ?_, ?_⟩
  · exact (readIndex_validates_layout pLayout0 pIndex0 [] { path := "d" }).2.1 (by decide)
  · exact (readIndex_validates_layout pLayout0 pIndex0 [("d/oci-layout", [3])]
      { path := "d" }).2.2.1 [3] (by decide) (by decide)
  · exact (readIndex_validates_layout pLayout0 pIndex0 [("d/oci-layout", [2])]
      { path := "d" }).2.2.2.1 [2] { version := "0.9" } (by decide) (by decide) (by decide)

/-- The first element satisfying a predicate, located by an index all of
whose predecessors fail the predicate, is what `find?` returns. -/
theorem find_eq_of_first {α : Type} (p : α → Bool) (l : List α) (i : Nat)
    (hi : i < l.length) (hb : ∀ e ∈ l.take i, p e = false)
    (hp : p (l.get ⟨i, hi⟩) = true) : l.find? p = some (l.get ⟨i, hi⟩) := by
  induction l generalizing i with
  | nil => exact absurd hi (Nat.not_lt_zero i)
  | cons a l ih =>
    cases i with
    | zero =>
      simp only [List.get] at hp
      simp [List.find?, hp]
    | succ n =>
      have ha : p a = false := hb a (by simp [List.take])
      have hb' : ∀ e ∈ l.take n, p e = false := by
        intro e he
        exact hb e (by simp [List.take, he])
      simp only [List.find?, ha]
      exact ih n (Nat.lt_of_succ_lt_succ hi) hb' hp

/-- Claim C7: on a manifest-list media type, `GetPlatformDesc` returns
`NotFound` (not `UnsupportedMediaType`) when no entry's platform matches,
and returns the first matching entry in declaration order otherwise. -/
theorem getPlatformDesc_list_lookup (matcher : Plat → Bool) (m : RCManifest) :
    (m.mt = MediaTypeDocker2ManifestList →
        ((∀ d ∈ m.dockerML.manifests, matcher (dlp2Platform d.platform) = false) →
            m.getPlatformDesc matcher = .error .NotFound)
      ∧ (∀ i, (hi : i < m.dockerML.manifests.length) →
          (∀ d ∈ m.dockerML.manifests.take i, matcher (dlp2Platform d.platform) = false) →
          matcher (dlp2Platform (m.dockerML.manifests.get ⟨i, hi⟩).platform) = true →
          m.getPlatformDesc matcher
            = .ok (dl2oDescriptor (m.dockerML.manifests.get ⟨i, hi⟩))))
  ∧ (m.mt = MediaTypeOCI1ManifestList →
        ((∀ d ∈ m.ociML.manifests, matcher (derefPlat d.platform) = false) →
            m.getPlatformDesc matcher = .error .NotFound)
      ∧ (∀ i, (hi : i < m.ociML.manifests.length) →
          (∀ d ∈ m.ociML.manifests.take i, matcher (derefPlat d.platform) = false) →
          matcher (derefPlat (m.ociML.manifests.get ⟨i, hi⟩).platform) = true →
          m.getPlatformDesc matcher = .ok (m.ociML.manifests.get ⟨i, hi⟩))) := by
  constructor
  · intro hmt
    constructor
    · intro hall
      have hf : m.dockerML.manifests.find?
          (fun d => matcher (dlp2Platform d.platform)) = none :=
        List.find?_eq_none.mpr (fun d hd => by simp [hall d hd])
      simp [RCManifest.getPlatformDesc, hmt, hf]
    · intro i hi hb hp
      have hf := find_eq_of_first (fun d => matcher (dlp2Platform d.platform))
        m.dockerML.manifests i hi hb hp
      simp [RCManifest.getPlatformDesc, hmt, hf]
  · intro hmt
    have hne : m.mt ≠ MediaTypeDocker2ManifestList := by
      rw [hmt]
      decide
    have hd : MediaTypeOCI1ManifestList ≠ MediaTypeDocker2ManifestList := by decide
    constructor
    · intro hall
      have hf : m.ociML.manifests.find?
          (fun d => matcher (derefPlat d.platform)) = none :=
        List.find?_eq_none.mpr (fun d hd => by simp [hall d hd])
      simp [RCManifest.getPlatformDesc, hmt, hne, hf, hd]
    · intro i hi hb hp
      have hf := find_eq_of_first (fun d => matcher (derefPlat d.platform))
        m.ociML.manifests i hi hb hp
      simp [RCManifest.getPlatformDesc, hmt, hne, hf, hd]

/-- Witness for C7 on a two-entry docker manifest list: an arm64 query hits
the second entry, a matcher that never matches yields `NotFound`. -/
theorem getPlatformDesc_list_lookup_witness :
    RCManifest.getPlatformDesc (fun p => p.architecture == "arm64")
        { mt := MediaTypeDocker2ManifestList,
          dockerML := { manifests := [{ platform := { architecture := "amd64" } },
            { digest := "sha256:x", platform := { architecture := "arm64" } }] } }
      = .ok (dl2oDescriptor { digest := "sha256:x",
                              platform := { architecture := "arm64" } })
  ∧ RCManifest.getPlatformDesc (fun _ => false)
        { mt := MediaTypeDocker2ManifestList,
          dockerML := { manifests := [{ platform := { architecture := "amd64" } }] } }
      = .error .NotFound := by
  constructor
  · exact ((getPlatformDesc_list_lookup (fun p => p.architecture == "arm64")
      { mt := MediaTypeDocker2ManifestList,
        dockerML := { manifests := [{ platform := { architecture := "amd64" } },
          { digest := "sha256:x", platform := { architecture := "arm64" } }] } }).1
      rfl).2 1 (by decide) (by decide) (by decide)
  · exact ((getPlatformDesc_list_lookup (fun _ => false)
      { mt := MediaTypeDocker2ManifestList,
        dockerML := { manifests := [{ platform := { architecture := "amd64" } }] } }).1
      rfl).1 (by intro d _; rfl)

/-- Claim C1: `MarshalJSON` returns the preserved raw bytes verbatim when
present and the canonical JSON of the structured fields otherwise; after
`SetOrig(v)` the raw body is the canonical JSON of `v` (media type forced),
the descriptor digest is the digest of exactly the bytes `MarshalJSON`
returns, and the descriptor size is their length — for both docker2
variants. -/
theorem marshal_digest_invariant (J : Schema2Manifest → Bytes)
    (JL : Schema2ManifestList → Bytes) (H : Bytes → String) :
    (∀ m : Docker2Manifest, m.manifSet = true →
        (m.rawBody ≠ [] → m.marshalJSON J = (m.rawBody, none))
      ∧ (m.rawBody = [] → m.marshalJSON J = (J m.manifest, none)))
  ∧ (∀ m : Docker2ManifestList, m.manifSet = true →
        (m.rawBody ≠ [] → m.marshalJSON JL = (m.rawBody, none))
      ∧ (m.rawBody = [] → m.marshalJSON JL = (JL m.manifestList, none)))
  ∧ (∀ (m : Docker2Manifest) (v : Schema2Manifest),
        (m.setOrig J H v).marshalJSON J = ((m.setOrig J H v).rawBody, none)
      ∧ (m.setOrig J H v).rawBody
          = J (if v.mediaType ≠ MediaTypeDocker2Manifest then
                { v with mediaType := MediaTypeDocker2Manifest } else v)
      ∧ (m.setOrig J H v).desc.digest = H ((m.setOrig J H v).marshalJSON J).1
      ∧ (m.setOrig J H v).desc.size = (((m.setOrig J H v).marshalJSON J).1.length : Int))
  ∧ (∀ (m : Docker2ManifestList) (v : Schema2ManifestList),
        (m.setOrig JL H v).marshalJSON JL = ((m.setOrig JL H v).rawBody, none)
      ∧ (m.setOrig JL H v).rawBody
          = JL (if v.mediaType ≠ MediaTypeDocker2ManifestList then
                { v with mediaType := MediaTypeDocker2ManifestList } else v)
      ∧ (m.setOrig JL H v).desc.digest = H ((m.setOrig JL H v).marshalJSON JL).1
      ∧ (m.setOrig JL H v).desc.size
          = (((m.setOrig JL H v).marshalJSON JL).1.length : Int)) := by
  refine ⟨?_, ?_, ?_, ?_⟩
  · intro m hset
    constructor
    · intro hraw
      have hlen : m.rawBody.length > 0 := List.length_pos.mpr hraw
      simp [Docker2Manifest.marshalJSON, hset, hlen]
    · intro hraw
      simp [Docker2Manifest.marshalJSON, hset, hraw]
  · intro m hset
    constructor
    · intro hraw
      have hlen : m.rawBody.length > 0 := List.length_pos.mpr hraw
      simp [Docker2ManifestList.marshalJSON, hset, hlen]
    · intro hraw
      simp [Docker2ManifestList.marshalJSON, hset, hraw]
  · intro m v
    have hm : (m.setOrig J H v).marshalJSON J = ((m.setOrig J H v).rawBody, none) := by
      simp only [Docker2Manifest.setOrig, Docker2Manifest.marshalJSON]
      by_cases hlen : (J (if v.mediaType ≠ MediaTypeDocker2Manifest then
          { v with mediaType := MediaTypeDocker2Manifest } else v)).length > 0
      · simp [hlen]
      · have : (J (if v.mediaType ≠ MediaTypeDocker2Manifest then
            { v with mediaType := MediaTypeDocker2Manifest } else v)) = [] :=
          List.eq_nil_of_length_eq_zero (Nat.eq_zero_of_not_pos hlen)
        simp [hlen, this]
    refine ⟨hm, ?_, ?_, ?_⟩
    · simp [Docker2Manifest.setOrig]
    · rw [hm]
      simp [Docker2Manifest.setOrig]
    · rw [hm]
      simp [Docker2Manifest.setOrig]
  · intro m v
    have hm : (m.setOrig JL H v).marshalJSON JL = ((m.setOrig JL H v).rawBody, none) := by
      simp only [Docker2ManifestList.setOrig, Docker2ManifestList.marshalJSON]
      by_cases hlen : (JL (if v.mediaType ≠ MediaTypeDocker2ManifestList then
          { v with mediaType := MediaTypeDocker2ManifestList } else v)).length > 0
      · simp [hlen]
      · have : (JL (if v.mediaType ≠ MediaTypeDocker2ManifestList then
            { v with mediaType := MediaTypeDocker2ManifestList } else v)) = [] :=
          List.eq_nil_of_length_eq_zero (Nat.eq_zero_of_not_pos hlen)
        simp [hlen, this]
    refine ⟨hm, ?_, ?_, ?_⟩
    · simp [Docker2ManifestList.setOrig]
    · rw [hm]
      simp [Docker2ManifestList.setOrig]
    · rw [hm]
      simp [Docker2ManifestList.setOrig]

/-- Witness for C1: raw bytes returned verbatim, and the `SetOrig` digest
invariant, at concrete inputs. -/
theorem marshal_digest_invariant_witness :
    ({ manifSet := true, rawBody := [7, 8] } : Docker2Manifest).marshalJSON J0
      = ([7, 8], none)
  ∧ (({} : Docker2Manifest).setOrig J0 H0 {}).desc.digest
      = H0 ((({} : Docker2Manifest).setOrig J0 H0 {}).marshalJSON J0).1 := by
  constructor
  · exact (((marshal_digest_invariant J0 JL0 H0).1
      { manifSet := true, rawBody := [7, 8] } rfl).1 (by decide))
  · exact ((marshal_digest_invariant J0 JL0 H0).2.2.1 {} {}).2.2.1

/-- Claim C8: on a Docker schema2 image manifest, `GetConfig` and
`GetLayers` return the stored descriptors while `GetManifestList` and
`GetPlatformDesc` fail with `UnsupportedMediaType`; on a manifest list,
`GetManifestList` returns the stored descriptors while `GetConfig` and
`GetLayers` fail with `UnsupportedMediaType`. -/
theorem docker2_variant_accessors :
    (∀ m : Docker2Manifest,
        m.getConfig = .ok m.manifest.config
      ∧ m.getLayers = .ok m.manifest.layers
      ∧ m.getManifestList = .error .UnsupportedMediaType
      ∧ ∀ p, m.getPlatformDesc p = .error .UnsupportedMediaType)
  ∧ (∀ m : Docker2ManifestList,
        m.getManifestList = .ok m.manifestList.manifests
      ∧ m.getConfig = .error .UnsupportedMediaType
      ∧ m.getLayers = .error .UnsupportedMediaType) :=
  ⟨fun _ => ⟨rfl, rfl, rfl, fun _ => rfl⟩, fun _ => ⟨rfl, rfl, rfl⟩⟩

/-- Claim C9: `ManifestDelete` fails with `MissingDigest` before issuing any
request when the reference has no digest; with a digest it issues
`DELETE /v2/<repo>/manifests/<digest>`. -/
theorem manifestDelete_requires_digest (r : Ref) :
    (r.digest = "" → manifestDelete r = .error .MissingDigest)
  ∧ (r.digest ≠ "" → manifestDelete r = .ok { method := "DELETE",
                                              path := "/v2/" ++ r.repository ++ "/manifests/" ++ r.digest,
                                              accept := manifestAccept }) := by
  constructor
  · intro h; simp [manifestDelete, h]
  · intro h; simp [manifestDelete, h]

/-- Witness for C9 at concrete references. -/
theorem manifestDelete_requires_digest_witness :
    manifestDelete { repository := "proj/repo" } = .error .MissingDigest
  ∧ manifestDelete { repository := "proj/repo", digest := "sha256:abc" }
      = .ok { method := "DELETE", path := "/v2/proj/repo/manifests/sha256:abc",
              accept := manifestAccept } := by
  refine ⟨(manifestDelete_requires_digest { repository := "proj/repo" }).1 rfl, ?_⟩
  have h := (manifestDelete_requires_digest
      { repository := "proj/repo", digest := "sha256:abc" }).2 (by decide)
  simpa using h

/-- The four supported media types are pairwise distinct (list vs image). -/
theorem mtDML_ne_mtDM : MediaTypeDocker2ManifestList ≠ MediaTypeDocker2Manifest := by
  decide

/-- OCI image manifest vs docker image manifest. -/
theorem mtOM_ne_mtDM : MediaTypeOCI1Manifest ≠ MediaTypeDocker2Manifest := by decide

/-- OCI image manifest vs docker manifest list. -/
theorem mtOM_ne_mtDML : MediaTypeOCI1Manifest ≠ MediaTypeDocker2ManifestList := by
  decide

/-- OCI index vs docker image manifest. -/
theorem mtOL_ne_mtDM : MediaTypeOCI1ManifestList ≠ MediaTypeDocker2Manifest := by
  decide

/-- OCI index vs docker manifest list. -/
theorem mtOL_ne_mtDML : MediaTypeOCI1ManifestList ≠ MediaTypeDocker2ManifestList := by
  decide

/-- OCI index vs OCI image manifest. -/
theorem mtOL_ne_mtOM : MediaTypeOCI1ManifestList ≠ MediaTypeOCI1Manifest := by decide

/-- Counterexample for C4: a manifest fetch whose `Docker-Content-Digest`
header disagrees with the digest computed over the body still succeeds —
the mismatch produces only the logged warning, not an error. -/
theorem manifestGet_digest_mismatch_counterexample :
    H0 [1, 2, 3] ≠ "sha256:bogus"
  ∧ (manifestGet H0 uD2M0 uD2ML0 uD2M0 uOI0 { tag := "t" }
      { statusCode := 200, contentType := MediaTypeDocker2Manifest,
        dockerContentDigest := "sha256:bogus", body := [1, 2, 3] }).2 = true
  ∧ (manifestGet H0 uD2M0 uD2ML0 uD2M0 uOI0 { tag := "t" }
      { statusCode := 200, contentType := MediaTypeDocker2Manifest,
        dockerContentDigest := "sha256:bogus", body := [1, 2, 3] }).1
      = .ok { digest := "sha256:3", mt := MediaTypeDocker2Manifest,
              origByte := [1, 2, 3], manifSet := true } := by
  refine ⟨by decide, by decide, rfl⟩

/-- Claim C4 as amended: `ManifestGet` compares the computed digest against
the `Docker-Content-Digest` header and the warning fires exactly on
mismatch, but the outcome of the fetch does not depend on the header at
all — a mismatch is not surfaced as an error. -/
theorem manifestGet_digest_header_warns (H : Bytes → String)
    (u1 : Bytes → Option Schema2Manifest) (u2 : Bytes → Option DockerManifestList)
    (u3 : Bytes → Option Schema2Manifest) (u4 : Bytes → Option OCIIndex)
    (r : Ref) (resp : HttpResponse)
    (h1 : ¬(r.digest = "" ∧ r.tag = "")) (h2 : resp.statusCode = 200) :
    (manifestGet H u1 u2 u3 u4 r resp).2
      = decide (H resp.body ≠ resp.dockerContentDigest)
  ∧ ∀ s, (manifestGet H u1 u2 u3 u4 r { resp with dockerContentDigest := s }).1
      = (manifestGet H u1 u2 u3 u4 r resp).1 := by
  constructor
  · by_cases hct1 : resp.contentType = MediaTypeDocker2Manifest
    · cases hu : u1 resp.body <;> simp [manifestGet, h1, h2, hct1, hu]
    · by_cases hct2 : resp.contentType = MediaTypeDocker2ManifestList
      · cases hu : u2 resp.body <;>
          simp [manifestGet, h1, h2, hct1, hct2, hu, mtDML_ne_mtDM]
      · by_cases hct3 : resp.contentType = MediaTypeOCI1Manifest
        · cases hu : u3 resp.body <;>
            simp [manifestGet, h1, h2, hct1, hct2, hct3, hu, mtOM_ne_mtDM, mtOM_ne_mtDML]
        · by_cases hct4 : resp.contentType = MediaTypeOCI1ManifestList
          · cases hu : u4 resp.body <;>
              simp [manifestGet, h1, h2, hct1, hct2, hct3, hct4, hu, mtOL_ne_mtDM,
                mtOL_ne_mtDML, mtOL_ne_mtOM]
          · simp [manifestGet, h1, h2, hct1, hct2, hct3, hct4]
  · intro s
    by_cases hct1 : resp.contentType = MediaTypeDocker2Manifest
    · cases hu : u1 resp.body <;> simp [manifestGet, h1, h2, hct1, hu]
    · by_cases hct2 : resp.contentType = MediaTypeDocker2ManifestList
      · cases hu : u2 resp.body <;>
          simp [manifestGet, h1, h2, hct1, hct2, hu, mtDML_ne_mtDM]
      · by_cases hct3 : resp.contentType = MediaTypeOCI1Manifest
        · cases hu : u3 resp.body <;>
            simp [manifestGet, h1, h2, hct1, hct2, hct3, hu, mtOM_ne_mtDM, mtOM_ne_mtDML]
        · by_cases hct4 : resp.contentType = MediaTypeOCI1ManifestList
          · cases hu : u4 resp.body <;>
              simp [manifestGet, h1, h2, hct1, hct2, hct3, hct4, hu, mtOL_ne_mtDM,
                mtOL_ne_mtDML, mtOL_ne_mtOM]
          · simp [manifestGet, h1, h2, hct1, hct2, hct3, hct4]

/-- Witness for the amended C4 at a concrete response. -/
theorem manifestGet_digest_header_warns_witness :
    (manifestGet H0 uD2M0 uD2ML0 uD2M0 uOI0 { tag := "t" }
      { statusCode := 200, contentType := MediaTypeDocker2Manifest,
        dockerContentDigest := "sha256:3", body := [1, 2, 3] }).2
      = decide (H0 [1, 2, 3] ≠ "sha256:3")
  ∧ (manifestGet H0 uD2M0 uD2ML0 uD2M0 uOI0 { tag := "t" }
      { statusCode := 200, contentType := MediaTypeDocker2Manifest,
        dockerContentDigest := "zzz", body := [1, 2, 3] }).1
      = (manifestGet H0 uD2M0 uD2ML0 uD2M0 uOI0 { tag := "t" }
        { statusCode := 200, contentType := MediaTypeDocker2Manifest,
          dockerContentDigest := "sha256:3", body := [1, 2, 3] }).1 := by
  constructor
  · exact (manifestGet_digest_header_warns H0 uD2M0 uD2ML0 uD2M0 uOI0 { tag := "t" }
      { statusCode := 200, contentType := MediaTypeDocker2Manifest,
        dockerContentDigest := "sha256:3", body := [1, 2, 3] }
      (by decide) rfl).1
  · exact (manifestGet_digest_header_warns H0 uD2M0 uD2ML0 uD2M0 uOI0 { tag := "t" }
      { statusCode := 200, contentType := MediaTypeDocker2Manifest,
        dockerContentDigest := "sha256:3", body := [1, 2, 3] }
      (by decide) rfl).2 "zzz"

/-- Reading back a freshly stored path returns the stored bytes. -/
theorem fsGet_fsSet_self (fs : FS) (p : String) (b : Bytes) :
    fsGet (fsSet fs p b) p = some b := by
  induction fs with
  | nil => simp [fsSet, fsGet]
  | cons a rest ih =>
    obtain ⟨p', b'⟩ := a
    by_cases h : p' = p
    · subst h; simp [fsSet, fsGet]
    · simp [fsSet, fsGet, h, ih]

/-- Counterexample for C5: the filesystem trace of `writeIndex` contains no
rename at all — `index.json` is truncated and rewritten in place — and an
interruption between the truncation and the write leaves `index.json`
empty, not the previously stored content. -/
theorem writeIndex_no_rename_counterexample :
    ((writeIndexOps [9] (fun _ => [5]) { path := "d" } {}).all
      (fun op => !op.isRen) = true)
  ∧ fsGet [("d/index.json", [1, 2, 3])] "d/index.json" = some [1, 2, 3]
  ∧ fsGet (applyOps [("d/index.json", [1, 2, 3])]
        ((writeIndexOps [9] (fun _ => [5]) { path := "d" } {}).take 3)) "d/index.json"
      = some []
  ∧ ([] : Bytes) ≠ [1, 2, 3] := by
  refine ⟨by decide, by decide, by decide, by decide⟩

/-- Claim C5 as amended: `writeIndex` rewrites `oci-layout` and `index.json`
in place — it truncates each file with `Create` and then writes the new
bytes, never using a temporary file or a rename — so a completed run leaves
the marshalled new index in `index.json`, while a failure between the
truncation and the write leaves `index.json` empty rather than the prior
content. -/
theorem writeIndex_in_place (jl : Bytes) (ji : Index → Bytes) (r : Ref)
    (i : Index) (fs : FS) :
    ((writeIndexOps jl ji r i).all (fun op => !op.isRen) = true)
  ∧ fsGet (applyOps fs (writeIndexOps jl ji r i)) (pathJoin r.path "index.json")
      = some (ji i)
  ∧ fsGet (applyOps fs ((writeIndexOps jl ji r i).take 3))
        (pathJoin r.path "index.json")
      = some [] := by
  refine ⟨rfl, ?_, ?_⟩
  · simp [writeIndexOps, applyOps, applyOp, fsGet_fsSet_self]
  · simp [writeIndexOps, applyOps, applyOp, fsGet_fsSet_self]

/-- Claim C10: with the manifest-set flag false, `MarshalJSON` returns empty
bytes and an `Unavailable` error, for the docker2 image and list variants
and for the regclient manifest struct. -/
theorem marshalJSON_unset_unavailable
    (J1 : Schema2Manifest → Bytes) (J2 : Schema2ManifestList → Bytes)
    (Jd : Schema2Manifest → Bytes) (Jdl : DockerManifestList → Bytes)
    (Jo : Schema2Manifest → Bytes) (Jol : OCIIndex → Bytes)
    (m1 : Docker2Manifest) (m2 : Docker2ManifestList) (m3 : RCManifest)
    (h1 : m1.manifSet = false) (h2 : m2.manifSet = false) (h3 : m3.manifSet = false) :
    m1.marshalJSON J1 = ([], some .Unavailable)
  ∧ m2.marshalJSON J2 = ([], some .Unavailable)
  ∧ RCManifest.marshalJSON Jd Jdl Jo Jol m3 = ([], some .Unavailable) := by
  refine ⟨?_, ?_, ?_⟩
  · simp [Docker2Manifest.marshalJSON, h1]
  · simp [Docker2ManifestList.marshalJSON, h2]
  · simp [RCManifest.marshalJSON, h3]

/-- Witness for C10 at the default-constructed (unset) manifests. -/
theorem marshalJSON_unset_unavailable_witness :
    ({} : Docker2Manifest).marshalJSON J0 = ([], some .Unavailable)
  ∧ ({} : Docker2ManifestList).marshalJSON JL0 = ([], some .Unavailable)
  ∧ RCManifest.marshalJSON J0 Jdl0 J0 Jol0 {} = ([], some .Unavailable) :=
  marshalJSON_unset_unavailable J0 JL0 J0 Jdl0 J0 Jol0 {} {} {} rfl rfl rfl

end RegClient
